import Mathlib

/-!
Shallow embedding of the ObsidianObserver event-capture and durable-record
pipeline (src/eventHandlers.ts, src/logger.ts, src/utils.ts), together with
theorems checking the specification's claims about it.

Modelling conventions: the host vault is modelled by the list of paths of the
documents it currently contains; per-call environment data (random bits, clock
readings, file-stat results, storage-failure outcomes) are explicit parameters;
`async`/`await` sequencing collapses to ordinary sequential evaluation, and a
thrown-and-caught host error is modelled by the branch the `catch` produces.
-/

namespace ObsidianObserver

/-- JS `a.startsWith(b)` at the character-list level. -/
def isPrefChars : List Char → List Char → Bool
  | [], _ => true
  | _ :: _, [] => false
  | c :: cs, d :: ds => (c == d) && isPrefChars cs ds

/-- Does the second list contain the first as a contiguous substring
(JS `a.includes(b)` at the character-list level)? -/
def hasSubstr (sub : List Char) : List Char → Bool
  | [] => sub.isEmpty
  | c :: cs => isPrefChars sub (c :: cs) || hasSubstr sub cs

/-- JS `s.startsWith(pre)`. -/
def strStartsWith (s p : String) : Bool := isPrefChars p.data s.data

/-- JS `s.includes(sub)`. -/
def strIncludes (s sub : String) : Bool := hasSubstr sub.data s.data

/-- `LoggerConfig` from types.ts: the configuration shared by the logger and
the event handlers. `eventsFolder` is the configured records root. -/
structure LoggerConfig where
  eventsFolder : String
  enableConsoleLog : Bool
deriving Repr, DecidableEq

/-- The optional `metadata` object attached to an `EventLog` by the handlers
(stat-derived fields plus the rename path pair; absent fields are `none`). -/
structure FileMetadata where
  lastModified : Option String := none
  fileSize : Option Nat := none
  oldPath : Option String := none
  newPath : Option String := none
  sourcePath : Option String := none
  targetPath : Option String := none
deriving Repr, DecidableEq

/-- `EventLog` from types.ts, as the handlers construct it. -/
structure EventLog where
  guid : String
  timestamp : String
  eventType : String
  filePath : String
  fileName : String
  vaultName : String
  hostname : Option String := none
  metadata : Option FileMetadata := none
deriving Repr, DecidableEq

/-- `EventLogger` state (logger.ts): its configuration, the in-memory
`logBuffer`, and the host vault modelled as the list of existing document
paths. -/
structure LoggerState where
  config : LoggerConfig
  buffer : List EventLog
  vault : List String
  pluginVersion : String
deriving Repr, DecidableEq

/-- `EventLogger.maxBufferSize` (logger.ts line 8): buffer capacity, 3. -/
def maxBufferSize : Nat := 3

/-- The deterministic storage path `eventsFolder ++ "/events/" ++ guid ++ ".md"`
computed by `EventLogger.createEventNote`. -/
def eventNotePath (cfg : LoggerConfig) (e : EventLog) : String :=
  cfg.eventsFolder ++ "/events/" ++ e.guid ++ ".md"

/-- `EventLogger.createEventNote` (logger.ts lines 191-243), as it acts on the
vault: compute the path from the guid; if a document already exists there,
return without writing; if `vault.create` throws (`fails` is true for the
path), the error is caught and the vault is unchanged; otherwise the document
is created. -/
def createEventNote (fails : String → Bool) (st : LoggerState) (e : EventLog) :
    LoggerState :=
  let filePath := eventNotePath st.config e
  if filePath ∈ st.vault then st
  else if fails filePath then st
  else { st with vault := filePath :: st.vault }

/-- `EventLogger.flushBuffer` (logger.ts lines 175-189): no-op on an empty
buffer; otherwise create an event note for each buffered record (each
`createEventNote` catches its own errors, so every record is attempted) and
then clear the buffer. -/
def flushBuffer (fails : String → Bool) (st : LoggerState) : LoggerState :=
  if st.buffer = [] then st
  else { st.buffer.foldl (createEventNote fails) st with buffer := [] }

/-- `EventLogger.logEvent` (logger.ts lines 156-173): push the record onto the
buffer, then flush if the buffer length has reached `maxBufferSize`. -/
def logEvent (fails : String → Bool) (st : LoggerState) (e : EventLog) :
    LoggerState :=
  let st2 := { st with buffer := st.buffer ++ [e] }
  if maxBufferSize ≤ st2.buffer.length then flushBuffer fails st2 else st2

/-- `EventHandlers` state (eventHandlers.ts): the re-entrancy flag, the
one-time ready latch, the (always empty) explicit exclusion list, the copy of
the logger configuration, the vault display name, and the owned logger. -/
structure HandlersState where
  isProcessingEvent : Bool
  hasLoggedAppReady : Bool
  excludedFiles : List String
  loggerConfig : LoggerConfig
  vaultName : String
  logger : LoggerState
deriving Repr, DecidableEq

/-- `EventHandlers.shouldExcludeFile` (eventHandlers.ts lines 250-273):
excluded when the path starts with the configured events folder, starts with
".obsidian/", contains ".temp"/".tmp"/".cache", starts with ".", or is in the
explicit exclusion list. -/
def shouldExcludeFile (cfg : LoggerConfig) (excludedFiles : List String)
    (filePath : String) : Bool :=
  if strStartsWith filePath cfg.eventsFolder then true
  else if strStartsWith filePath ".obsidian/" then true
  else if strIncludes filePath ".temp" || strIncludes filePath ".tmp"
       || strIncludes filePath ".cache" then true
  else if strStartsWith filePath "." then true
  else excludedFiles.contains filePath

/-- A `TFile` as the handlers use it: its vault path and base name. -/
structure TFile where
  path : String
  name : String
deriving Repr, DecidableEq

/-- The `adapter.stat` result used by the handlers. -/
structure StatResult where
  mtime : String
  size : Nat
deriving Repr, DecidableEq

/-- Per-invocation environment of a handler: the fresh guid from
`generateBase32Guid`, the clock reading `new Date().toISOString()`, and the
outcome of `adapter.stat` (`none` models both a null result and a thrown,
caught error). -/
structure HandlerEnv where
  guid : String
  nowIso : String
  statResult : Option StatResult
deriving Repr, DecidableEq

/-- `EventHandlers.handleFileOpen` (eventHandlers.ts lines 338-382). The
`finally` block clears `isProcessingEvent` on every exit path, including the
early-return drop paths. -/
def handleFileOpen (fails : String → Bool) (st : HandlersState)
    (env : HandlerEnv) (file : TFile) : HandlersState :=
  if st.isProcessingEvent then { st with isProcessingEvent := false }
  else if shouldExcludeFile st.loggerConfig st.excludedFiles file.path then
    { st with isProcessingEvent := false }
  else
    let metadata : Option FileMetadata := env.statResult.map fun s =>
      { lastModified := some s.mtime, fileSize := some s.size }
    let e : EventLog :=
      { guid := env.guid, timestamp := env.nowIso, eventType := "open",
        filePath := file.path, fileName := file.name,
        vaultName := st.vaultName, metadata := metadata }
    { st with isProcessingEvent := false, logger := logEvent fails st.logger e }

/-- `EventHandlers.handleFileSave` (eventHandlers.ts lines 384-428). -/
def handleFileSave (fails : String → Bool) (st : HandlersState)
    (env : HandlerEnv) (file : TFile) : HandlersState :=
  if st.isProcessingEvent then { st with isProcessingEvent := false }
  else if shouldExcludeFile st.loggerConfig st.excludedFiles file.path then
    { st with isProcessingEvent := false }
  else
    let metadata : Option FileMetadata := env.statResult.map fun s =>
      { lastModified := some s.mtime, fileSize := some s.size }
    let e : EventLog :=
      { guid := env.guid, timestamp := env.nowIso, eventType := "save",
        filePath := file.path, fileName := file.name,
        vaultName := st.vaultName, metadata := metadata }
    { st with isProcessingEvent := false, logger := logEvent fails st.logger e }

/-- The rename record built by `handleFileRename`: the path pair travels
inside the stat-guarded `metadata` object, so it is present exactly when the
stat call succeeds. -/
def renameRecord (st : HandlersState) (env : HandlerEnv) (file : TFile)
    (oldPath : String) : EventLog :=
  { guid := env.guid, timestamp := env.nowIso, eventType := "rename",
    filePath := file.path, fileName := file.name, vaultName := st.vaultName,
    metadata := env.statResult.map fun s =>
      { lastModified := some s.mtime, fileSize := some s.size,
        oldPath := some oldPath, newPath := some file.path } }

/-- `EventHandlers.handleFileRename` (eventHandlers.ts lines 430-476): the
exclusion filter is checked against both the new path and the old path before
any record is built. -/
def handleFileRename (fails : String → Bool) (st : HandlersState)
    (env : HandlerEnv) (file : TFile) (oldPath : String) : HandlersState :=
  if st.isProcessingEvent then { st with isProcessingEvent := false }
  else if shouldExcludeFile st.loggerConfig st.excludedFiles file.path
       || shouldExcludeFile st.loggerConfig st.excludedFiles oldPath then
    { st with isProcessingEvent := false }
  else
    { st with isProcessingEvent := false,
              logger := logEvent fails st.logger (renameRecord st env file oldPath) }

/-- `EventHandlers.handleFileDelete` (eventHandlers.ts lines 478-510). -/
def handleFileDelete (fails : String → Bool) (st : HandlersState)
    (env : HandlerEnv) (file : TFile) : HandlersState :=
  if st.isProcessingEvent then { st with isProcessingEvent := false }
  else if shouldExcludeFile st.loggerConfig st.excludedFiles file.path then
    { st with isProcessingEvent := false }
  else
    let e : EventLog :=
      { guid := env.guid, timestamp := env.nowIso, eventType := "delete",
        filePath := file.path, fileName := file.name,
        vaultName := st.vaultName,
        metadata := some { lastModified := some env.nowIso } }
    { st with isProcessingEvent := false, logger := logEvent fails st.logger e }

/-- `EventHandlers.handleAppReady` (eventHandlers.ts lines 512-547): latched
by `hasLoggedAppReady`, guarded by `isProcessingEvent`, and the latch is set
only after the ready record has been logged. -/
def handleAppReady (fails : String → Bool) (st : HandlersState)
    (env : HandlerEnv) : HandlersState :=
  if st.hasLoggedAppReady then { st with isProcessingEvent := false }
  else if st.isProcessingEvent then { st with isProcessingEvent := false }
  else
    let e : EventLog :=
      { guid := env.guid, timestamp := env.nowIso, eventType := "ready",
        filePath := "", fileName := "", vaultName := st.vaultName,
        metadata := some { lastModified := some env.nowIso } }
    { st with isProcessingEvent := false, hasLoggedAppReady := true,
              logger := logEvent fails st.logger e }

/-- The lowercase hexadecimal digits, in value order. -/
def hexDigits : List Char := "0123456789abcdef".data

/-- JS `v.toString(16)` for a nibble value: the hex digit of `v`. (Values
above 15 never occur in the generator; the default is junk.) -/
def toHexChar (v : Nat) : Char := hexDigits.getD v '0'

/-- JS `parseInt(c, 16)` on a single lowercase character: the index of `c` in
the hex alphabet (16, standing in for NaN, when `c` is not a hex digit —
unreachable for generated uuids). -/
def hexVal (c : Char) : Nat := hexDigits.indexOf c

/-- The uuid-v4 template string of `generateBase32Guid` (utils.ts line 11). -/
def uuidTemplate : List Char := "xxxxxxxx-xxxx-4xxx-yxxx-xxxxxxxxxxxx".data

/-- The `replace(/[xy]/g, ...)` callback of `generateBase32Guid` applied along
the template: `rand k` is the k-th `Math.random() * 16 | 0` nibble; an `x`
becomes that nibble's hex digit, a `y` becomes `(r & 0x3 | 0x8)`'s hex digit,
and every other template character is kept. -/
def fillUuidAux (rand : Nat → Fin 16) (k : Nat) : List Char → List Char
  | [] => []
  | c :: cs =>
    if c = 'x' then toHexChar (rand k) :: fillUuidAux rand (k + 1) cs
    else if c = 'y' then
      toHexChar (((rand k).val &&& 3) ||| 8) :: fillUuidAux rand (k + 1) cs
    else c :: fillUuidAux rand k cs

/-- The random version-4-style uuid built by `generateBase32Guid`
(utils.ts lines 11-15), with the randomness stream made explicit. -/
def fillUuid (rand : Nat → Fin 16) : List Char := fillUuidAux rand 0 uuidTemplate

/-- JS `s.padStart(4, '0')`. -/
def padStart4 (l : List Char) : List Char := List.replicate (4 - l.length) '0' ++ l

/-- JS `s.padEnd(5, '0')`. -/
def padEnd5 (l : List Char) : List Char := l ++ List.replicate (5 - l.length) '0'

/-- JS `hex.toString(2).padStart(4, '0')` (utils.ts line 34): the binary
digits of a nibble, left-padded to four bits. -/
def toBin4 (n : Nat) : List Char := padStart4 (Nat.toDigits 2 n)

/-- JS `parseInt(chunk, 2)` on a chunk of binary digits. -/
def binVal (l : List Char) : Nat :=
  l.foldl (fun a c => 2 * a + (if c = '1' then 1 else 0)) 0

/-- The RFC 4648 base32 alphabet (utils.ts line 38). -/
def base32Chars : List Char := "ABCDEFGHIJKLMNOPQRSTUVWXYZ234567".data

/-- The hyphen-stripping and lowercasing step of `uuidToBase32`
(utils.ts line 28). -/
def cleanHex (uuid : List Char) : List Char :=
  (uuid.filter fun c => c ≠ '-').map Char.toLower

/-- The binary string built by the first loop of `uuidToBase32`
(utils.ts lines 31-35): four bits per hex character. -/
def hexToBinary (l : List Char) : List Char := l.flatMap fun c => toBin4 (hexVal c)

/-- The second loop of `uuidToBase32` (utils.ts lines 41-46): one base32
symbol per 5-bit group, the last group zero-padded. -/
def toBase32Chunks : List Char → List Char
  | [] => []
  | c :: cs =>
    base32Chars.getD (binVal (padEnd5 ((c :: cs).take 5))) 'A'
      :: toBase32Chunks ((c :: cs).drop 5)
termination_by l => l.length
decreasing_by simp; omega

/-- `uuidToBase32` (utils.ts lines 26-50): strip hyphens, lowercase, expand to
bits, re-encode in 5-bit groups, truncate to 26 symbols. -/
def uuidToBase32 (uuid : String) : String :=
  ⟨(toBase32Chunks (hexToBinary (cleanHex uuid.data))).take 26⟩

/-- `generateBase32Guid` (utils.ts lines 9-19), with the randomness stream
made explicit. -/
def generateBase32Guid (rand : Nat → Fin 16) : String :=
  uuidToBase32 ⟨fillUuid rand⟩

/-- `EventFrontmatter` from types.ts, as `createEventNote` populates it
(logger.ts lines 203-220). -/
structure EventFrontmatter where
  OOEvent_GUID : String
  OOEvent_Timestamp : String
  OOEvent_LocalTimestamp : String
  OOEvent_Timezone : String
  OOEvent_Type : String
  OOEvent_FilePath : String
  OOEvent_FileName : String
  OOEvent_VaultName : String
  OOEvent_Hostname : Option String
  OOEvent_LastModified : String
  OOEvent_Created : String
  OOEvent_OldPath : Option String
  OOEvent_NewPath : Option String
  OOEvent_SourcePath : Option String
  OOEvent_TargetPath : Option String
  OOEvent_PluginVersion : String
deriving Repr, DecidableEq

/-- The per-note clock and environment readings of `createEventNote`: the
local timestamp, the resolved timezone, and the `OOEvent_Created` instant. -/
structure NoteEnv where
  localTimestamp : String
  timezone : String
  createdAt : String
  pluginVersion : String
deriving Repr, DecidableEq

/-- The `EventLog` → `EventFrontmatter` conversion of `createEventNote`
(logger.ts lines 203-220). `OOEvent_LastModified` is
`eventLog.metadata?.lastModified || ''` — the empty string when absent. -/
def toFrontmatter (env : NoteEnv) (e : EventLog) : EventFrontmatter :=
  { OOEvent_GUID := e.guid,
    OOEvent_Timestamp := e.timestamp,
    OOEvent_LocalTimestamp := env.localTimestamp,
    OOEvent_Timezone := env.timezone,
    OOEvent_Type := e.eventType,
    OOEvent_FilePath := e.filePath,
    OOEvent_FileName := e.fileName,
    OOEvent_VaultName := e.vaultName,
    OOEvent_Hostname := e.hostname,
    OOEvent_LastModified := (e.metadata.bind fun m => m.lastModified).getD "",
    OOEvent_Created := env.createdAt,
    OOEvent_OldPath := e.metadata.bind fun m => m.oldPath,
    OOEvent_NewPath := e.metadata.bind fun m => m.newPath,
    OOEvent_SourcePath := e.metadata.bind fun m => m.sourcePath,
    OOEvent_TargetPath := e.metadata.bind fun m => m.targetPath,
    OOEvent_PluginVersion := env.pluginVersion }

/-- JS truthiness of an optional string: `undefined` and `''` are falsy. -/
def jsTruthy : Option String → Bool
  | none => false
  | some s => !(s == "")

/-- JS template interpolation of a possibly-undefined string: `undefined`
renders as the text "undefined". -/
def jsOptStr : Option String → String
  | none => "undefined"
  | some s => s

/-- JS `s.toUpperCase()`. -/
def jsToUpper (s : String) : String := ⟨s.data.map Char.toUpper⟩

/-- The frontmatter block built by `createNoteContent` (logger.ts lines
245-278), one `(label, value)` pair per emitted `label: value` line, in
emission order; the optional path fields are appended only when truthy.
`renderNoteLine`/`renderFrontmatter` below recover the literal text. -/
def frontmatterPairs (fm : EventFrontmatter) (e : EventLog) :
    List (String × String) :=
  [("aliases", "[" ++ jsToUpper e.eventType ++ " Event, " ++ e.fileName ++ "]"),
   ("tags", "[obsidian-explorer, event, " ++ e.eventType ++ "]"),
   ("type", "obsidian-event"),
   ("OOEvent_GUID", fm.OOEvent_GUID),
   ("OOEvent_Timestamp", fm.OOEvent_Timestamp),
   ("OOEvent_LocalTimestamp", fm.OOEvent_LocalTimestamp),
   ("OOEvent_Timezone", fm.OOEvent_Timezone),
   ("OOEvent_Type", fm.OOEvent_Type),
   ("OOEvent_FilePath", fm.OOEvent_FilePath),
   ("OOEvent_FileName", fm.OOEvent_FileName),
   ("OOEvent_VaultName", fm.OOEvent_VaultName),
   ("OOEvent_Hostname", jsOptStr fm.OOEvent_Hostname),
   ("OOEvent_LastModified", fm.OOEvent_LastModified),
   ("OOEvent_Created", fm.OOEvent_Created),
   ("OOEvent_PluginVersion", fm.OOEvent_PluginVersion)]
  ++ (if jsTruthy fm.OOEvent_OldPath then
        [("OOEvent_OldPath", jsOptStr fm.OOEvent_OldPath)] else [])
  ++ (if jsTruthy fm.OOEvent_NewPath then
        [("OOEvent_NewPath", jsOptStr fm.OOEvent_NewPath)] else [])
  ++ (if jsTruthy fm.OOEvent_SourcePath then
        [("OOEvent_SourcePath", jsOptStr fm.OOEvent_SourcePath)] else [])
  ++ (if jsTruthy fm.OOEvent_TargetPath then
        [("OOEvent_TargetPath", jsOptStr fm.OOEvent_TargetPath)] else [])

/-- One frontmatter line as `createNoteContent` emits it. -/
def renderNoteLine (p : String × String) : String := p.1 ++ ": " ++ p.2

/-- The full note content of `createNoteContent` (logger.ts lines 245-291):
the frontmatter block between `---` fences followed by a wiki-link to the
subject, or a descriptive body for subject-less events. -/
def createNoteContent (env : NoteEnv) (fm : EventFrontmatter) (e : EventLog) :
    String :=
  "---\n" ++ String.intercalate "\n" ((frontmatterPairs fm e).map renderNoteLine)
    ++ "\n---\n\n"
    ++ (if e.fileName ≠ "" then "[[" ++ e.fileName ++ "]]"
        else "# " ++ jsToUpper e.eventType ++ " Event\n\nThis event was logged at "
          ++ env.localTimestamp ++ ".")

/-- One call of the logger's public buffer interface: `logEvent` or
`flushBuffer`. -/
inductive LoggerOp where
  | log (e : EventLog)
  | flush
deriving Repr

/-- Apply one buffer-interface call to the logger state. -/
def applyOp (fails : String → Bool) (st : LoggerState) : LoggerOp → LoggerState
  | .log e => logEvent fails st e
  | .flush => flushBuffer fails st

/-! Concrete sample inputs used by the witness theorems below. -/

/-- A sample configuration with the default records root. -/
def cfgSample : LoggerConfig :=
  { eventsFolder := "ObsidianObserver", enableConsoleLog := true }

/-- A storage environment in which no create call fails. -/
def noFail : String → Bool := fun _ => false

/-- A freshly constructed logger over an empty vault. -/
def loggerSample : LoggerState :=
  { config := cfgSample, buffer := [], vault := [], pluginVersion := "1.6.1" }

/-- A sample save record with a chosen guid. -/
def sampleLog (g : String) : EventLog :=
  { guid := g, timestamp := "2025-01-01T00:00:00.000Z", eventType := "save",
    filePath := "Notes/A.md", fileName := "A.md", vaultName := "V" }

/-- Freshly registered handlers over `loggerSample`. -/
def handlersSample : HandlersState :=
  { isProcessingEvent := false, hasLoggedAppReady := false, excludedFiles := [],
    loggerConfig := cfgSample, vaultName := "V", logger := loggerSample }

/-- A sample handler environment with a successful stat call. -/
def envSample : HandlerEnv :=
  { guid := "G1", nowIso := "2025-01-01T00:00:00.000Z",
    statResult := some { mtime := "2024-12-31T00:00:00.000Z", size := 1024 } }

/-- A handler environment whose stat call failed. -/
def envNoStat : HandlerEnv := { guid := "G2", nowIso := "T1", statResult := none }

/-- The configuration of the spec's rename scenario: records root
"Notes/_system". -/
def renameCfg : LoggerConfig :=
  { eventsFolder := "Notes/_system", enableConsoleLog := false }

/-- Fresh handlers configured with `renameCfg`. -/
def renameStart : HandlersState :=
  { isProcessingEvent := false, hasLoggedAppReady := false, excludedFiles := [],
    loggerConfig := renameCfg, vaultName := "V",
    logger := { config := renameCfg, buffer := [], vault := [],
                pluginVersion := "1.6.1" } }

/-- The rename target file of the spec's rename scenario. -/
def fileB : TFile := { path := "Notes/B.md", name := "B.md" }

/-- A sample per-note clock environment. -/
def noteEnvSample : NoteEnv :=
  { localTimestamp := "L", timezone := "Z", createdAt := "C",
    pluginVersion := "1.6.1" }

/-- An open record whose stat call failed, so it carries no metadata. -/
def openLogNoMeta : EventLog :=
  { guid := "G3", timestamp := "T", eventType := "open",
    filePath := "Notes/A.md", fileName := "A.md", vaultName := "V" }

/-! Helper lemmas about the logger. -/

/-- `createEventNote` never touches the configuration. -/
theorem createEventNote_config (fails : String → Bool) (st : LoggerState)
    (e : EventLog) : (createEventNote fails st e).config = st.config := by
  simp only [createEventNote]
  split
  · rfl
  · split <;> rfl

/-- `createEventNote` never touches the buffer. -/
theorem createEventNote_buffer (fails : String → Bool) (st : LoggerState)
    (e : EventLog) : (createEventNote fails st e).buffer = st.buffer := by
  simp only [createEventNote]
  split
  · rfl
  · split <;> rfl

/-- When the note already exists or its creation fails, `createEventNote`
leaves the state unchanged. -/
theorem createEventNote_noop (fails : String → Bool) (st : LoggerState)
    (e : EventLog)
    (h : eventNotePath st.config e ∈ st.vault
       ∨ fails (eventNotePath st.config e) = true) :
    createEventNote fails st e = st := by
  simp only [createEventNote]
  rcases h with h | h
  · simp [h]
  · split
    · rfl
    · simp [h]

/-- When the note is new and its creation succeeds, `createEventNote` adds
exactly its path to the vault. -/
theorem createEventNote_creates (fails : String → Bool) (st : LoggerState)
    (e : EventLog) (hm : eventNotePath st.config e ∉ st.vault)
    (hf : fails (eventNotePath st.config e) = false) :
    createEventNote fails st e
      = { st with vault := eventNotePath st.config e :: st.vault } := by
  simp [createEventNote, hm, hf]

/-- `flushBuffer` always returns with an empty buffer. -/
theorem flushBuffer_buffer_nil (fails : String → Bool) (st : LoggerState) :
    (flushBuffer fails st).buffer = [] := by
  unfold flushBuffer
  split
  · assumption
  · rfl

/-- `logEvent` returns with at most `maxBufferSize - 1` buffered records
whenever it starts from at most that many. -/
theorem logEvent_buffer_le (fails : String → Bool) (st : LoggerState)
    (e : EventLog) (h : st.buffer.length ≤ maxBufferSize - 1) :
    (logEvent fails st e).buffer.length ≤ maxBufferSize - 1 := by
  simp only [logEvent]
  split
  · rw [flushBuffer_buffer_nil]
    decide
  · rename_i hlt
    simp only [List.length_append, List.length_cons, List.length_nil] at hlt ⊢
    simp only [maxBufferSize] at *
    omega

/-- Claim C1: every path that begins with the configured records-root folder
is excluded by `shouldExcludeFile`, so no event record is built or buffered
for a document stored under the records root by any file handler. -/
theorem recordsRoot_always_excluded (cfg : LoggerConfig) (ex : List String)
    (p : String) (h : strStartsWith p cfg.eventsFolder = true) :
    shouldExcludeFile cfg ex p = true ∧
    ∀ (fails : String → Bool) (st : HandlersState) (env : HandlerEnv)
      (file : TFile) (oldPath : String),
      st.loggerConfig = cfg → file.path = p →
      (handleFileOpen fails st env file).logger = st.logger ∧
      (handleFileSave fails st env file).logger = st.logger ∧
      (handleFileDelete fails st env file).logger = st.logger ∧
      (handleFileRename fails st env file oldPath).logger = st.logger := by
  have hx : ∀ ex2, shouldExcludeFile cfg ex2 p = true := by
    intro ex2
    simp [shouldExcludeFile, h]
  refine ⟨hx ex, ?_⟩
  intro fails st env file oldPath hcfg hfp
  subst hcfg hfp
  refine ⟨?_, ?_, ?_, ?_⟩ <;>
    · simp only [handleFileOpen, handleFileSave, handleFileDelete,
        handleFileRename, hx]
      cases hb : st.isProcessingEvent <;> simp [hx]

/-- Witness for C1 at the default records root. -/
theorem recordsRoot_always_excluded_witness :
    strStartsWith "ObsidianObserver/events/X.md" cfgSample.eventsFolder = true ∧
    shouldExcludeFile cfgSample [] "ObsidianObserver/events/X.md" = true :=
  ⟨by decide,
   (recordsRoot_always_excluded cfgSample [] "ObsidianObserver/events/X.md"
     (by decide)).1⟩

/-- Claim C2: the storage path of a record is the deterministic
`eventsFolder ++ "/events/" ++ guid ++ ".md"`, a fresh successful
`createEventNote` stores exactly one document at it, and repeating the call
with the same record is a no-op (the existing document is found and left
untouched). -/
theorem createEventNote_idempotent (fails : String → Bool) (st : LoggerState)
    (e : EventLog) (hnew : eventNotePath st.config e ∉ st.vault)
    (hok : fails (eventNotePath st.config e) = false) :
    eventNotePath st.config e
      = st.config.eventsFolder ++ "/events/" ++ e.guid ++ ".md" ∧
    (createEventNote fails st e).vault.count (eventNotePath st.config e) = 1 ∧
    createEventNote fails (createEventNote fails st e) e
      = createEventNote fails st e := by
  have h1 : createEventNote fails st e
      = { st with vault := eventNotePath st.config e :: st.vault } :=
    createEventNote_creates fails st e hnew hok
  refine ⟨rfl, ?_, ?_⟩
  · rw [h1]
    simp only [List.count_cons_self]
    rw [List.count_eq_zero.mpr hnew]
  · rw [h1]
    exact createEventNote_noop fails _ e (Or.inl (List.mem_cons_self _ _))

/-- Witness for C2 on a fresh vault. -/
theorem createEventNote_idempotent_witness :
    (createEventNote noFail loggerSample (sampleLog "G1")).vault.count
      (eventNotePath loggerSample.config (sampleLog "G1")) = 1 :=
  (createEventNote_idempotent noFail loggerSample (sampleLog "G1")
    (by decide) rfl).2.1

/-- Claim C3: with the default capacity 3, two `logEvent` calls from an empty
buffer flush nothing and leave both records buffered, and the third call
triggers the automatic flush and leaves the buffer empty. -/
theorem logEvent_flush_threshold (fails : String → Bool) (st : LoggerState)
    (e1 e2 e3 : EventLog) (h : st.buffer = []) :
    (logEvent fails (logEvent fails st e1) e2).buffer = [e1, e2] ∧
    (logEvent fails (logEvent fails st e1) e2).vault = st.vault ∧
    (logEvent fails (logEvent fails (logEvent fails st e1) e2) e3).buffer
      = [] := by
  have h1 : logEvent fails st e1 = { st with buffer := [e1] } := by
    simp [logEvent, h, maxBufferSize]
  have h2 : logEvent fails (logEvent fails st e1) e2
      = { st with buffer := [e1, e2] } := by
    rw [h1]
    simp [logEvent, maxBufferSize]
  refine ⟨by rw [h2], by rw [h2], ?_⟩
  rw [h2]
  simp only [logEvent]
  rw [if_pos (by simp [maxBufferSize])]
  exact flushBuffer_buffer_nil fails _

/-- Witness for C3 from a fresh logger. -/
theorem logEvent_flush_threshold_witness :
    (logEvent noFail (logEvent noFail loggerSample (sampleLog "A"))
        (sampleLog "B")).buffer = [sampleLog "A", sampleLog "B"] ∧
    (logEvent noFail (logEvent noFail (logEvent noFail loggerSample
        (sampleLog "A")) (sampleLog "B")) (sampleLog "C")).buffer = [] := by
  have h := logEvent_flush_threshold noFail loggerSample (sampleLog "A")
    (sampleLog "B") (sampleLog "C") rfl
  exact ⟨h.1, h.2.2⟩

/-- Claim C4: when persisting the second record of a three-record flush
fails, the first and third records are still persisted, the failed record is
not, and the buffer is empty when `flushBuffer` returns. -/
theorem flushBuffer_failure_isolation (fails : String → Bool)
    (st : LoggerState) (e1 e2 e3 : EventLog) (hb : st.buffer = [e1, e2, e3])
    (h1 : fails (eventNotePath st.config e1) = false)
    (h2 : fails (eventNotePath st.config e2) = true)
    (h3 : fails (eventNotePath st.config e3) = false)
    (n1 : eventNotePath st.config e1 ∉ st.vault)
    (n3 : eventNotePath st.config e3 ∉ st.vault)
    (d12 : eventNotePath st.config e1 ≠ eventNotePath st.config e2)
    (d13 : eventNotePath st.config e1 ≠ eventNotePath st.config e3)
    (d23 : eventNotePath st.config e2 ≠ eventNotePath st.config e3) :
    (flushBuffer fails st).buffer = [] ∧
    eventNotePath st.config e1 ∈ (flushBuffer fails st).vault ∧
    eventNotePath st.config e3 ∈ (flushBuffer fails st).vault ∧
    (eventNotePath st.config e2 ∉ st.vault →
      eventNotePath st.config e2 ∉ (flushBuffer fails st).vault) := by
  have s1 : createEventNote fails st e1
      = { st with vault := eventNotePath st.config e1 :: st.vault } :=
    createEventNote_creates fails st e1 n1 h1
  have s2 : createEventNote fails (createEventNote fails st e1) e2
      = createEventNote fails st e1 := by
    apply createEventNote_noop
    rw [s1]
    exact Or.inr h2
  have s3 : createEventNote fails (createEventNote fails st e1) e3
      = { st with vault := eventNotePath st.config e3 ::
            eventNotePath st.config e1 :: st.vault } := by
    rw [s1]
    refine createEventNote_creates fails _ e3 ?_ h3
    simp only [List.mem_cons]
    rintro (hc | hc)
    · exact d13 hc.symm
    · exact n3 hc
  have hfold : flushBuffer fails st
      = { st with
          vault := eventNotePath st.config e3 ::
            eventNotePath st.config e1 :: st.vault,
          buffer := [] } := by
    unfold flushBuffer
    rw [if_neg (by simp [hb]), hb]
    simp only [List.foldl_cons, List.foldl_nil]
    rw [s2, s3]
  rw [hfold]
  refine ⟨rfl, by simp, by simp, ?_⟩
  intro hn2
  simp only [List.mem_cons, not_or]
  exact ⟨d23, fun hc => d12 hc.symm, hn2⟩

/-- Witness for C4: three records, the middle one failing. -/
theorem flushBuffer_failure_isolation_witness :
    (flushBuffer
      (fun p => p == eventNotePath cfgSample (sampleLog "B"))
      { loggerSample with
          buffer := [sampleLog "A", sampleLog "B", sampleLog "C"] }).buffer
      = [] ∧
    eventNotePath cfgSample (sampleLog "A") ∈ (flushBuffer
      (fun p => p == eventNotePath cfgSample (sampleLog "B"))
      { loggerSample with
          buffer := [sampleLog "A", sampleLog "B", sampleLog "C"] }).vault ∧
    eventNotePath cfgSample (sampleLog "C") ∈ (flushBuffer
      (fun p => p == eventNotePath cfgSample (sampleLog "B"))
      { loggerSample with
          buffer := [sampleLog "A", sampleLog "B", sampleLog "C"] }).vault := by
  have h := flushBuffer_failure_isolation
    (fun p => p == eventNotePath cfgSample (sampleLog "B"))
    { loggerSample with
        buffer := [sampleLog "A", sampleLog "B", sampleLog "C"] }
    (sampleLog "A") (sampleLog "B") (sampleLog "C") rfl
    (by decide) (by decide) (by decide) (by decide) (by decide)
    (by decide) (by decide) (by decide)
  exact ⟨h.1, h.2.1, h.2.2.1⟩

/-- Claim C10: from any logger state within the bound, every sequence of
`logEvent` and `flushBuffer` calls returns with at most
`maxBufferSize - 1 = 2` buffered records; the automatic flush inside
`logEvent` prevents unflushed records from accumulating to the capacity. -/
theorem buffer_bound_invariant (fails : String → Bool) (ops : List LoggerOp)
    (st : LoggerState) (h : st.buffer.length ≤ maxBufferSize - 1) :
    ((ops.foldl (applyOp fails) st).buffer).length ≤ maxBufferSize - 1 := by
  induction ops generalizing st with
  | nil => exact h
  | cons op rest ih =>
    rw [List.foldl_cons]
    apply ih
    cases op with
    | log e => exact logEvent_buffer_le fails st e h
    | flush =>
      rw [show applyOp fails st LoggerOp.flush = flushBuffer fails st from rfl,
        flushBuffer_buffer_nil]
      decide

/-- Witness for C10: a concrete six-call sequence from a fresh logger. -/
theorem buffer_bound_invariant_witness :
    (([LoggerOp.log (sampleLog "A"), LoggerOp.log (sampleLog "B"),
        LoggerOp.flush, LoggerOp.log (sampleLog "C"),
        LoggerOp.log (sampleLog "D"), LoggerOp.log (sampleLog "E")].foldl
        (applyOp noFail) loggerSample).buffer).length ≤ maxBufferSize - 1 :=
  buffer_bound_invariant noFail _ loggerSample (by decide)

/-- Once the ready latch is set, `handleAppReady` only clears the
processing flag. -/
theorem handleAppReady_latched (fails : String → Bool) (s : HandlersState)
    (env : HandlerEnv) (h : s.hasLoggedAppReady = true) :
    handleAppReady fails s env = { s with isProcessingEvent := false } := by
  simp [handleAppReady, h]

/-- Claim C5: while a guarded handler is executing (`isProcessingEvent`
true), an incoming invocation of any guarded handler leaves the logger
untouched (the notification is dropped, not queued), and every handler
clears `isProcessingEvent` on every exit path. -/
theorem reentrancy_guard_drops_and_clears (fails : String → Bool)
    (st st2 : HandlersState) (env env2 : HandlerEnv) (file file2 : TFile)
    (oldPath oldPath2 : String) (h : st.isProcessingEvent = true) :
    ((handleFileOpen fails st env file).logger = st.logger ∧
     (handleFileSave fails st env file).logger = st.logger ∧
     (handleFileRename fails st env file oldPath).logger = st.logger ∧
     (handleFileDelete fails st env file).logger = st.logger ∧
     (handleAppReady fails st env).logger = st.logger) ∧
    ((handleFileOpen fails st2 env2 file2).isProcessingEvent = false ∧
     (handleFileSave fails st2 env2 file2).isProcessingEvent = false ∧
     (handleFileRename fails st2 env2 file2 oldPath2).isProcessingEvent
        = false ∧
     (handleFileDelete fails st2 env2 file2).isProcessingEvent = false ∧
     (handleAppReady fails st2 env2).isProcessingEvent = false) := by
  constructor
  · refine ⟨?_, ?_, ?_, ?_, ?_⟩ <;>
      simp [handleFileOpen, handleFileSave, handleFileRename,
        handleFileDelete, handleAppReady, h]
  · refine ⟨?_, ?_, ?_, ?_, ?_⟩ <;>
      · simp only [handleFileOpen, handleFileSave, handleFileRename,
          handleFileDelete, handleAppReady]
        split_ifs <;> rfl

/-- Witness for C5: a save arriving while a handler is executing is dropped
and the flag ends cleared. -/
theorem reentrancy_guard_drops_and_clears_witness :
    (handleFileSave noFail { handlersSample with isProcessingEvent := true }
        envSample fileB).logger
      = ({ handlersSample with isProcessingEvent := true } :
          HandlersState).logger ∧
    (handleFileSave noFail { handlersSample with isProcessingEvent := true }
        envSample fileB).isProcessingEvent = false := by
  have h := reentrancy_guard_drops_and_clears noFail
    { handlersSample with isProcessingEvent := true }
    { handlersSample with isProcessingEvent := true }
    envSample envSample fileB fileB "Notes/A.md" "Notes/A.md" rfl
  exact ⟨h.1.2.1, h.2.2.1⟩

/-- Claim C6: from a fresh session, three invocations of the
application-ready signal log exactly one "ready" record; the second and
third return without building one. -/
theorem appReady_logged_once (fails : String → Bool) (st : HandlersState)
    (env1 env2 env3 : HandlerEnv) (h1 : st.hasLoggedAppReady = false)
    (h2 : st.isProcessingEvent = false) (h3 : st.logger.buffer = []) :
    ((handleAppReady fails (handleAppReady fails (handleAppReady fails st
        env1) env2) env3).logger.buffer.countP
      fun e => e.eventType == "ready") = 1 ∧
    (handleAppReady fails (handleAppReady fails (handleAppReady fails st
        env1) env2) env3).logger.vault = st.logger.vault ∧
    (handleAppReady fails (handleAppReady fails (handleAppReady fails st
        env1) env2) env3).hasLoggedAppReady = true := by
  have r1 : handleAppReady fails st env1
      = { st with
            isProcessingEvent := false
            hasLoggedAppReady := true
            logger := { st.logger with buffer :=
              [{ guid := env1.guid, timestamp := env1.nowIso,
                 eventType := "ready", filePath := "", fileName := "",
                 vaultName := st.vaultName, hostname := none,
                 metadata := some { lastModified := some env1.nowIso } }] } } := by
    simp [handleAppReady, h1, h2, logEvent, h3, maxBufferSize]
  rw [r1, handleAppReady_latched fails _ env2 rfl,
    handleAppReady_latched fails _ env3 rfl]
  refine ⟨?_, rfl, rfl⟩
  simp [List.countP, List.countP.go]

/-- Witness for C6 from a fresh handlers state. -/
theorem appReady_logged_once_witness :
    ((handleAppReady noFail (handleAppReady noFail (handleAppReady noFail
        handlersSample envSample) envNoStat) envSample).logger.buffer.countP
      fun e => e.eventType == "ready") = 1 :=
  (appReady_logged_once noFail handlersSample envSample envNoStat envSample
    rfl rfl rfl).1

/-- Counterexample to claim C7 as stated: in the spec's own rename scenario
(records root "Notes/_system", rename "Notes/A.md" → "Notes/B.md", both
endpoints outside the root) with a failed stat call, a rename record is
built and buffered, but its old-path and new-path fields are NOT populated:
the path pair travels inside the stat-guarded metadata object. -/
theorem rename_statfail_unpopulated :
    shouldExcludeFile renameCfg [] "Notes/B.md" = false ∧
    shouldExcludeFile renameCfg [] "Notes/A.md" = false ∧
    ((handleFileRename noFail renameStart envNoStat fileB
        "Notes/A.md").logger.buffer.map
      fun e => (e.eventType, e.metadata.bind fun m => m.oldPath,
                e.metadata.bind fun m => m.newPath))
      = [("rename", none, none)] := by decide

/-- Claim C7 (amended): the exclusion filter is checked against both
endpoints before any record is built, and if either endpoint is excluded no
rename record is built or buffered; if both endpoints pass the filter, a
rename record is built and buffered, and its old-path and new-path fields
are populated exactly when the stat call succeeds. -/
theorem rename_filter_both_endpoints (fails : String → Bool)
    (st : HandlersState) (env : HandlerEnv) (file : TFile)
    (oldPath : String) :
    (shouldExcludeFile st.loggerConfig st.excludedFiles file.path = true ∨
     shouldExcludeFile st.loggerConfig st.excludedFiles oldPath = true →
     (handleFileRename fails st env file oldPath).logger = st.logger) ∧
    (st.isProcessingEvent = false →
     shouldExcludeFile st.loggerConfig st.excludedFiles file.path = false →
     shouldExcludeFile st.loggerConfig st.excludedFiles oldPath = false →
     (handleFileRename fails st env file oldPath).logger
        = logEvent fails st.logger (renameRecord st env file oldPath) ∧
     (renameRecord st env file oldPath).eventType = "rename" ∧
     (∀ s, env.statResult = some s →
       ((renameRecord st env file oldPath).metadata.bind fun m => m.oldPath)
          = some oldPath ∧
       ((renameRecord st env file oldPath).metadata.bind fun m => m.newPath)
          = some file.path) ∧
     (env.statResult = none →
       (renameRecord st env file oldPath).metadata = none)) := by
  constructor
  · intro h
    unfold handleFileRename
    rcases h with h | h <;>
      cases hb : st.isProcessingEvent <;> simp [h]
  · intro hp hf ho
    refine ⟨?_, rfl, ?_, ?_⟩
    · simp [handleFileRename, hp, hf, ho]
    · intro s hs
      simp [renameRecord, hs]
    · intro hs
      simp [renameRecord, hs]

/-- Witness for C7 (amended): the spec's rename scenario with a successful
stat call buffers a rename record with both path fields populated. -/
theorem rename_filter_both_endpoints_witness :
    ((renameRecord renameStart envSample fileB "Notes/A.md").metadata.bind
        fun m => m.oldPath) = some "Notes/A.md" ∧
    ((renameRecord renameStart envSample fileB "Notes/A.md").metadata.bind
        fun m => m.newPath) = some "Notes/B.md" := by
  have h := (rename_filter_both_endpoints noFail renameStart envSample fileB
    "Notes/A.md").2 rfl (by decide) (by decide)
  exact h.2.2.1 _ rfl

/-- Counterexample to claim C9 as stated: for a record whose stat call
failed (no metadata), the stat-derived `OOEvent_LastModified` field is still
emitted, with an empty value — it is not omitted. -/
theorem lastModified_emitted_empty :
    openLogNoMeta.metadata = none ∧
    ("OOEvent_LastModified", "")
      ∈ frontmatterPairs (toFrontmatter noteEnvSample openLogNoMeta)
          openLogNoMeta ∧
    renderNoteLine ("OOEvent_LastModified", "")
      = "OOEvent_LastModified: " := by decide

/-- Claim C9 (amended): in every persisted event document the optional
`OOEvent_OldPath`/`OOEvent_NewPath` fields are omitted entirely when absent
and are never emitted with an empty value, while the stat-derived
`OOEvent_LastModified` field is always emitted — with an empty value when no
stat data is available. -/
theorem optional_fields_emission (fm : EventFrontmatter) (e : EventLog) :
    (∀ v, ("OOEvent_OldPath", v) ∈ frontmatterPairs fm e ↔
        (fm.OOEvent_OldPath = some v ∧ v ≠ "")) ∧
    (∀ v, ("OOEvent_NewPath", v) ∈ frontmatterPairs fm e ↔
        (fm.OOEvent_NewPath = some v ∧ v ≠ "")) ∧
    ("OOEvent_LastModified", fm.OOEvent_LastModified)
      ∈ frontmatterPairs fm e := by
  refine ⟨?_, ?_, by simp [frontmatterPairs]⟩
  · intro v
    cases hop : fm.OOEvent_OldPath with
    | none => simp [frontmatterPairs, jsTruthy, hop]
    | some s =>
      by_cases hs : s = ""
      · simp [frontmatterPairs, jsTruthy, jsOptStr, hop, hs]
        exact fun h => h.symm
      · simp [frontmatterPairs, jsTruthy, jsOptStr, hop, hs]
        constructor
        · rintro rfl
          exact ⟨rfl, hs⟩
        · rintro ⟨h, -⟩
          exact h.symm
  · intro v
    cases hop : fm.OOEvent_NewPath with
    | none => simp [frontmatterPairs, jsTruthy, hop]
    | some s =>
      by_cases hs : s = ""
      · simp [frontmatterPairs, jsTruthy, jsOptStr, hop, hs]
        exact fun h => h.symm
      · simp [frontmatterPairs, jsTruthy, jsOptStr, hop, hs]
        constructor
        · rintro rfl
          exact ⟨rfl, hs⟩
        · rintro ⟨h, -⟩
          exact h.symm

/-! Helper lemmas for the identifier generator. -/

/-- The hex digit of every nibble is a hex-digit character. -/
theorem toHexChar_mem_of_lt (v : Nat) (h : v < 16) : toHexChar v ∈ hexDigits := by
  interval_cases v <;> decide

/-- `toHexChar` never produces a hyphen. -/
theorem toHexChar_ne_dash (v : Nat) : toHexChar v ≠ '-' := by
  rcases Nat.lt_or_ge v 16 with h | h
  · interval_cases v <;> decide
  · unfold toHexChar
    rw [List.getD_eq_default]
    · decide
    · simpa [hexDigits] using h

/-- Lowercasing fixes every hex-digit character. -/
theorem toLower_hex : ∀ c ∈ hexDigits, Char.toLower c = c := by decide

/-- Every hex-digit character has a nibble value. -/
theorem hexVal_lt_of_mem : ∀ c ∈ hexDigits, hexVal c < 16 := by decide

/-- The masked-or-8 nibble of the template's `y` slot stays below 16. -/
theorem y_nibble_lt (r : Fin 16) : (r.val &&& 3) ||| 8 < 16 := by
  have h3 : r.val &&& 3 < 4 := Nat.lt_succ_of_le (Nat.and_le_right)
  interval_cases h : (r.val &&& 3) <;> decide

/-- Every character of the filled template is a hex digit or a kept
template character other than `x` and `y`. -/
theorem fillUuidAux_mem (rand : Nat → Fin 16) :
    ∀ (cs : List Char) (k : Nat) (c : Char), c ∈ fillUuidAux rand k cs →
      c ∈ hexDigits ∨ (c ∈ cs ∧ c ≠ 'x' ∧ c ≠ 'y') := by
  intro cs
  induction cs with
  | nil => intro k c hc; simp [fillUuidAux] at hc
  | cons d ds ih =>
    intro k c hc
    unfold fillUuidAux at hc
    by_cases hx : d = 'x'
    · rw [if_pos hx] at hc
      rcases List.mem_cons.mp hc with hc | hc
      · exact Or.inl (hc ▸ toHexChar_mem_of_lt _ (rand k).isLt)
      · rcases ih (k + 1) c hc with h | ⟨hm, hnx, hny⟩
        · exact Or.inl h
        · exact Or.inr ⟨List.mem_cons_of_mem d hm, hnx, hny⟩
    · rw [if_neg hx] at hc
      by_cases hy : d = 'y'
      · rw [if_pos hy] at hc
        rcases List.mem_cons.mp hc with hc | hc
        · exact Or.inl (hc ▸ toHexChar_mem_of_lt _ (y_nibble_lt (rand k)))
        · rcases ih (k + 1) c hc with h | ⟨hm, hnx, hny⟩
          · exact Or.inl h
          · exact Or.inr ⟨List.mem_cons_of_mem d hm, hnx, hny⟩
      · rw [if_neg hy] at hc
        rcases List.mem_cons.mp hc with hc | hc
        · subst hc
          exact Or.inr ⟨List.mem_cons_self _ _, hx, hy⟩
        · rcases ih k c hc with h | ⟨hm, hnx, hny⟩
          · exact Or.inl h
          · exact Or.inr ⟨List.mem_cons_of_mem d hm, hnx, hny⟩

/-- Filling the template preserves the number of non-hyphen characters. -/
theorem fillUuidAux_filter_len (rand : Nat → Fin 16) :
    ∀ (cs : List Char) (k : Nat),
      ((fillUuidAux rand k cs).filter fun c => c ≠ '-').length
        = (cs.filter fun c => c ≠ '-').length := by
  intro cs
  induction cs with
  | nil => intro k; simp [fillUuidAux]
  | cons d ds ih =>
    intro k
    unfold fillUuidAux
    by_cases hx : d = 'x'
    · rw [if_pos hx]
      simp only [List.filter_cons]
      rw [if_pos (by simp [toHexChar_ne_dash]), if_pos (by simp [hx])]
      simpa using ih (k + 1)
    · rw [if_neg hx]
      by_cases hy : d = 'y'
      · rw [if_pos hy]
        simp only [List.filter_cons]
        rw [if_pos (by simp [toHexChar_ne_dash]), if_pos (by simp [hy])]
        simpa using ih (k + 1)
      · rw [if_neg hy]
        simp only [List.filter_cons]
        by_cases hd : d = '-'
        · rw [if_neg (by simp [hd]), if_neg (by simp [hd])]
          simpa using ih k
        · rw [if_pos (by simp [hd]), if_pos (by simp [hd])]
          simpa using ih k

/-- The template's characters. -/
theorem template_chars :
    ∀ c ∈ uuidTemplate, c = 'x' ∨ c = 'y' ∨ c = '-' ∨ c = '4' := by decide

/-- The template holds 32 non-hyphen characters. -/
theorem template_filter_len :
    ((uuidTemplate.filter fun c => c ≠ '-').length) = 32 := by decide

/-- Every character of the cleaned uuid is a hex digit. -/
theorem cleanHex_fill_mem (rand : Nat → Fin 16) :
    ∀ c ∈ cleanHex (fillUuid rand), c ∈ hexDigits := by
  intro c hc
  simp only [cleanHex, List.mem_map, List.mem_filter] at hc
  obtain ⟨d, ⟨hd, hdash⟩, rfl⟩ := hc
  have hd16 : d ∈ hexDigits := by
    rcases fillUuidAux_mem rand uuidTemplate 0 d hd with h | ⟨hm, hnx, hny⟩
    · exact h
    · rcases template_chars d hm with h | h | h | h
      · exact absurd h hnx
      · exact absurd h hny
      · simp [h] at hdash
      · simp [h, hexDigits]
  rw [toLower_hex d hd16]
  exact hd16

/-- The cleaned uuid has exactly 32 characters. -/
theorem cleanHex_fill_len (rand : Nat → Fin 16) :
    (cleanHex (fillUuid rand)).length = 32 := by
  simp only [cleanHex, List.length_map, fillUuid]
  rw [fillUuidAux_filter_len rand uuidTemplate 0, template_filter_len]

/-- Each nibble contributes four binary digits. -/
theorem toBin4_len_of_lt (v : Nat) (h : v < 16) : (toBin4 v).length = 4 := by
  interval_cases v <;> decide

/-- The binary expansion of a hex-digit list has four bits per character. -/
theorem hexToBinary_len (l : List Char) (h : ∀ c ∈ l, c ∈ hexDigits) :
    (hexToBinary l).length = 4 * l.length := by
  induction l with
  | nil => simp [hexToBinary]
  | cons c cs ih =>
    simp only [hexToBinary, List.flatMap_cons, List.length_append]
    rw [toBin4_len_of_lt _ (hexVal_lt_of_mem c (h c (List.mem_cons_self _ _)))]
    have := ih fun d hd => h d (List.mem_cons_of_mem c hd)
    simp only [hexToBinary] at this
    rw [this]
    simp only [List.length_cons]
    ring

/-- `binVal` of a list of characters is below `2 ^ length`. -/
theorem binVal_lt (l : List Char) : binVal l < 2 ^ l.length := by
  suffices h : ∀ (l : List Char) (a : Nat),
      l.foldl (fun a c => 2 * a + (if c = '1' then 1 else 0)) a
        < (a + 1) * 2 ^ l.length by
    simpa using h l 0
  intro l
  induction l with
  | nil => intro a; simp
  | cons c cs ih =>
    intro a
    simp only [List.foldl_cons, List.length_cons]
    calc cs.foldl (fun a c => 2 * a + (if c = '1' then 1 else 0))
          (2 * a + (if c = '1' then 1 else 0))
        < (2 * a + (if c = '1' then 1 else 0) + 1) * 2 ^ cs.length := ih _
      _ ≤ (a + 1) * 2 ^ (cs.length + 1) := by
          have hb : (if c = '1' then 1 else 0) ≤ 1 := by split <;> omega
          rw [pow_succ]
          nlinarith [Nat.pos_pow_of_pos cs.length (show 0 < 2 by decide)]

/-- The padded chunk always has exactly five characters. -/
theorem padEnd5_take_len (l : List Char) : (padEnd5 (l.take 5)).length = 5 := by
  simp only [padEnd5, List.length_append, List.length_replicate,
    List.length_take]
  omega

/-- Every character the chunk encoder emits is in the base32 alphabet. -/
theorem toBase32Chunks_mem :
    ∀ l : List Char, ∀ c ∈ toBase32Chunks l, c ∈ base32Chars := by
  intro l
  induction l using toBase32Chunks.induct with
  | case1 => simp [toBase32Chunks]
  | case2 d ds ih =>
    intro c hc
    rw [toBase32Chunks] at hc
    rcases List.mem_cons.mp hc with hc | hc
    · subst hc
      have hlt : binVal (padEnd5 ((d :: ds).take 5)) < base32Chars.length := by
        have h5 := binVal_lt (padEnd5 ((d :: ds).take 5))
        rw [padEnd5_take_len] at h5
        simpa [base32Chars] using h5
      rw [List.getD_eq_getElem _ _ hlt]
      exact List.getElem_mem hlt
    · exact ih c hc

/-- The chunk encoder emits one symbol per started 5-bit group. -/
theorem toBase32Chunks_len :
    ∀ l : List Char, (toBase32Chunks l).length = (l.length + 4) / 5 := by
  intro l
  induction l using toBase32Chunks.induct with
  | case1 => simp [toBase32Chunks]
  | case2 d ds ih =>
    rw [toBase32Chunks]
    simp only [List.length_cons, ih, List.length_drop]
    omega

/-- Claim C8: for every randomness stream, the identifier generator expands
its 32 hex characters (128 bits) of version-4-style randomness into binary,
re-encodes 5-bit groups, and returns a 26-character string drawn entirely
from the 32-symbol alphabet `ABCDEFGHIJKLMNOPQRSTUVWXYZ234567`. -/
theorem guid_length_and_alphabet (rand : Nat → Fin 16) :
    (hexToBinary (cleanHex (fillUuid rand))).length = 128 ∧
    (generateBase32Guid rand).length = 26 ∧
    ∀ c ∈ (generateBase32Guid rand).data, c ∈ base32Chars := by
  have hb : (hexToBinary (cleanHex (fillUuid rand))).length = 128 := by
    rw [hexToBinary_len _ (cleanHex_fill_mem rand), cleanHex_fill_len]
  have hchunks : (toBase32Chunks (hexToBinary (cleanHex
      (fillUuid rand)))).length = 26 := by
    rw [toBase32Chunks_len, hb]
  refine ⟨hb, ?_, ?_⟩
  · show (uuidToBase32 ⟨fillUuid rand⟩).length = 26
    simp only [uuidToBase32, String.length]
    rw [List.length_take, hchunks]
    exact Nat.min_self 26
  · intro c hc
    have hc2 : c ∈ toBase32Chunks (hexToBinary (cleanHex (fillUuid rand))) :=
      List.mem_of_mem_take hc
    exact toBase32Chunks_mem _ c hc2

end ObsidianObserver
